import Mathlib

namespace OdsMcp

/-- JSON-like Python value as it appears in parsed API responses.
Numeric JSON values are modeled as integers; dictionaries are ordered
association lists (Python dicts preserve insertion order). -/
inductive Val where
  | s : String → Val
  | i : Int → Val
  | a : List Val → Val
  | o : List (String × Val) → Val
  | null : Val

mutual

/-- Python str() of a value (containers render via repr, as Python does). -/
def pyStr : Val → String
  | .s t => t
  | .i n => toString n
  | .a l => "[" ++ pyReprArr l ++ "]"
  | .o l => "\x7b" ++ pyReprObj l ++ "\x7d"
  | .null => "None"

/-- Python repr() of a value (string escaping beyond quoting is not needed
by the inputs considered here). -/
def pyRepr : Val → String
  | .s t => "\x27" ++ t ++ "\x27"
  | .i n => toString n
  | .a l => "[" ++ pyReprArr l ++ "]"
  | .o l => "\x7b" ++ pyReprObj l ++ "\x7d"
  | .null => "None"

def pyReprArr : List Val → String
  | [] => ""
  | [v] => pyRepr v
  | v :: vs => pyRepr v ++ ", " ++ pyReprArr vs

def pyReprObj : List (String × Val) → String
  | [] => ""
  | [(k, v)] => "\x27" ++ k ++ "\x27: " ++ pyRepr v
  | (k, v) :: kvs => "\x27" ++ k ++ "\x27: " ++ pyRepr v ++ ", " ++ pyReprObj kvs

end

/-- JSON string escaping of backslash and double quote (json.dumps; control
characters do not occur in the inputs considered here). -/
def jsonEscape (t : String) : String :=
  String.mk (t.data.flatMap fun c =>
    if c = '\\' then ['\\', '\\'] else if c = '\"' then ['\\', '\"'] else [c])

mutual

/-- json.dumps with ensure_ascii=False and default separators, as used to
serialize nested dict/list values before display (query_tools.py, etc.). -/
def jsonDumps : Val → String
  | .s t => "\"" ++ jsonEscape t ++ "\""
  | .i n => toString n
  | .a l => "[" ++ jsonDumpsArr l ++ "]"
  | .o l => "\x7b" ++ jsonDumpsObj l ++ "\x7d"
  | .null => "null"

def jsonDumpsArr : List Val → String
  | [] => ""
  | [v] => jsonDumps v
  | v :: vs => jsonDumps v ++ ", " ++ jsonDumpsArr vs

def jsonDumpsObj : List (String × Val) → String
  | [] => ""
  | [(k, v)] => "\"" ++ jsonEscape k ++ "\": " ++ jsonDumps v
  | (k, v) :: kvs => "\"" ++ jsonEscape k ++ "\": " ++ jsonDumps v ++ ", " ++ jsonDumpsObj kvs

end

/-- A parsed JSON object / Python dict: ordered key-value pairs. -/
abbrev Doc := List (String × Val)

/-- Python dict lookup: d[k] if present (first binding wins, as keys are
unique in parsed JSON). -/
def dictGet? (d : Doc) (k : String) : Option Val :=
  (d.find? fun kv => kv.1 == k).map (·.2)

/-- Python d.get(k, dflt). -/
def dictGetD (d : Doc) (k : String) (dflt : Val) : Val :=
  (dictGet? d k).getD dflt

/-- Python truthiness of a value. -/
def pyTruthy : Val → Bool
  | .s t => !(t == "")
  | .i n => !(n == 0)
  | .a l => !l.isEmpty
  | .o l => !l.isEmpty
  | .null => false

/-- Python truthiness of an optional-string parameter (None or str). -/
def pyTruthyStr : Option String → Bool
  | none => false
  | some t => !(t == "")

/-- Python v.get(k, dflt) on an arbitrary value: raises AttributeError
(modeled as Except.error) when v is not a dict. -/
def valGetD (v : Val) (k : String) (dflt : Val) : Except String Val :=
  match v with
  | .o d => .ok (dictGetD d k dflt)
  | _ => .error "AttributeError"

/-- Python v[0]: first element of a list or first character of a string;
raises IndexError when empty, TypeError/KeyError on non-subscriptable or
dict values. -/
def subscriptZero : Val → Except String Val
  | .a [] => .error "IndexError"
  | .a (v :: _) => .ok v
  | .s t =>
    match t.data with
    | [] => .error "IndexError"
    | c :: _ => .ok (.s (String.mk [c]))
  | .o _ => .error "KeyError"
  | _ => .error "TypeError"

/-- Python sep.join(xs). -/
def joinSep (sep : String) : List String → String
  | [] => ""
  | [x] => x
  | x :: xs => x ++ sep ++ joinSep sep xs

/-- Is pat a prefix of the character list? -/
def isPrefixList : List Char → List Char → Bool
  | [], _ => true
  | _ :: _, [] => false
  | p :: ps, c :: cs => p == c && isPrefixList ps cs

/-- Worker for pyReplace: left-to-right non-overlapping replacement; the
Nat argument counts characters still to be skipped after a match (the
patterns used in the source are all non-empty). -/
def replaceAux (pat rep : List Char) : Nat → List Char → List Char
  | _, [] => []
  | Nat.succ k, _ :: rest => replaceAux pat rep k rest
  | 0, c :: rest =>
    if isPrefixList pat (c :: rest) then rep ++ replaceAux pat rep (pat.length - 1) rest
    else c :: replaceAux pat rep 0 rest

/-- Python s.replace(pat, rep) for non-empty pat. -/
def pyReplace (s pat rep : String) : String :=
  String.mk (replaceAux pat.data rep.data 0 s.data)

/-- Python s[:n]. -/
def pyTake (s : String) (n : Nat) : String :=
  String.mk (s.data.take n)

/-! ### Query builder: OdsApiClient.list_datasets (src/ods_api.py lines 74-93)

The filter (where) parameter assembled from the optional search, publisher,
theme and where arguments. -/

/-- Embeds the where-parameter assembly of OdsApiClient.list_datasets:
collect where, publisher, theme clauses in that order, join with " AND ",
then prepend the double-quoted search term (ANDed) when search is truthy.
Returns none when no filter parameter is set. -/
def listDatasetsWhereParam (search publisher theme whereArg : Option String) : Option String :=
  let whereClauses : List String :=
    (if pyTruthyStr whereArg then [whereArg.getD ""] else []) ++
    (if pyTruthyStr publisher then ["publisher=\"" ++ publisher.getD "" ++ "\""] else []) ++
    (if pyTruthyStr theme then ["theme=\"" ++ theme.getD "" ++ "\""] else [])
  let whereParam : Option String :=
    if whereClauses.isEmpty then none else some (joinSep " AND " whereClauses)
  if pyTruthyStr search then
    some ("\"" ++ search.getD "" ++ "\"" ++
      (match whereParam with
       | some w => " AND " ++ w
       | none => ""))
  else whereParam

/-! ### Report formatter: shared value display -/

/-- Display of a record value in a report line or table cell: nested
dict/list values are serialized with json.dumps (ensure_ascii=False),
everything else with str() (query_tools.py lines 77-80, 91-94). -/
def displayCell (v : Val) : String :=
  match v with
  | .o _ => jsonDumps v
  | .a _ => jsonDumps v
  | _ => pyStr v

/-! ### get_dataset_records / get_dataset_aggregates record rendering
(src/tools/query_tools.py lines 62-95 and 160-181) -/

/-- One markdown table cell: record.get(key, "") then displayCell. -/
def tableCell (r : Doc) (k : String) : String :=
  displayCell (dictGetD r k (.s ""))

/-- The data rows of the markdown table: one row per record, cells in the
order of recordKeys; a non-dict record raises AttributeError at
record.get. -/
def tableRowsAux (recordKeys : List String) : List Val → Except String (List String)
  | [] => .ok []
  | .o d :: rest => do
    let restRows ← tableRowsAux recordKeys rest
    .ok (("| " ++ joinSep " | " (recordKeys.map (tableCell d)) ++ " |") :: restRows)
  | _ :: _ => .error "AttributeError"

/-- Markdown table: header row from recordKeys, separator row with one
"---" per key, then one row per record (query_tools.py lines 82-95,
duplicated at lines 168-181). -/
def markdownTableLines (recordKeys : List String) (records : List Val) :
    Except String (List String) := do
  let rows ← tableRowsAux recordKeys records
  .ok (("\n| " ++ joinSep " | " recordKeys ++ " |") ::
       ("| " ++ joinSep " | " (recordKeys.map fun _ => "---") ++ " |") :: rows)

/-- Verbose per-record key/value listing (query_tools.py lines 74-80);
the Nat is the 1-based record number. -/
def verboseRecordLines : Nat → List Val → Except String (List String)
  | _, [] => .ok []
  | i, .o d :: rest => do
    let restLines ← verboseRecordLines (i + 1) rest
    .ok (("\nRecord " ++ toString i ++ ":") ::
         d.map (fun kv => "  " ++ kv.1 ++ ": " ++ displayCell kv.2) ++ restLines)
  | _, _ :: _ => .error "AttributeError"

/-- Record-rendering section of get_dataset_records (query_tools.py lines
67-95): keys are taken from the first record; more than 10 keys switches
from the markdown table to the verbose per-record listing. -/
def recordsSectionLines (records : List Val) : Except String (List String) :=
  match records with
  | [] => .ok []
  | .o d0 :: rest =>
    let recordKeys := d0.map Prod.fst
    if recordKeys.length > 10 then do
      let lines ← verboseRecordLines 1 (.o d0 :: rest)
      .ok (("\nFound " ++ toString recordKeys.length ++
            " fields in the records. Here\x27s a summary of the first " ++
            toString (Val.o d0 :: rest).length ++ " records:") :: lines)
    else
      markdownTableLines recordKeys (.o d0 :: rest)
  | _ :: _ => .error "AttributeError"

/-- Record-rendering section of get_dataset_aggregates (query_tools.py
lines 165-181): always the markdown table, keys from the first record. -/
def aggregatesSectionLines (records : List Val) : Except String (List String) :=
  match records with
  | [] => .ok []
  | .o d0 :: _ => markdownTableLines (d0.map Prod.fst) records
  | _ :: _ => .error "AttributeError"

/-- Auxiliary title lookup with blanket except fallback (query_tools.py
lines 50-55 and analogous blocks): dataset_info.get("metas", default
chain) with "Unknown Dataset" on any failure. -/
def datasetTitle (titleFetched : Except String Doc) : Val :=
  match (do
      let info ← titleFetched
      let md ← valGetD (dictGetD info "metas" (.o [])) "default" (.o [])
      valGetD md "title" (.s "Unknown Dataset")) with
  | .ok t => t
  | .error _ => .s "Unknown Dataset"

/-- ODSQL note block of get_dataset_records (query_tools.py lines 97-105). -/
def odsqlNoteLines (select whereArg order_by : Option String) : List String :=
  if pyTruthyStr select || pyTruthyStr whereArg || pyTruthyStr order_by then
    ["\nNote: This query used ODSQL syntax:"] ++
    (if pyTruthyStr select then ["- SELECT: " ++ select.getD ""] else []) ++
    (if pyTruthyStr whereArg then ["- WHERE: " ++ whereArg.getD ""] else []) ++
    (if pyTruthyStr order_by then ["- ORDER BY: " ++ order_by.getD ""] else [])
  else []

/-- Guard shared by the tools: Python
"not results or \"results\" not in results or not results[\"results\"]". -/
def emptyResultsGuard (results : Doc) : Bool :=
  !pyTruthy (.o results) || (dictGet? results "results").isNone ||
    !pyTruthy (dictGetD results "results" .null)

/-- The get_dataset_records tool (src/tools/query_tools.py lines 8-107).
fetched is the outcome of the primary records lookup (the only call inside
the try/except); titleFetched is the auxiliary dataset lookup. An
Except.error result models an uncaught Python exception. -/
def get_dataset_records_tool (fetched titleFetched : Except String Doc)
    (dataset_id : String) (offset : Int)
    (select whereArg order_by : Option String) : Except String String :=
  match fetched with
  | .error e => .ok ("Error retrieving dataset records: " ++ e)
  | .ok results =>
    if emptyResultsGuard results then
      .ok ("No records found for dataset \x27" ++ dataset_id ++
           "\x27 with the specified criteria.")
    else
      match dictGetD results "results" .null with
      | .a records =>
        let headerLines :=
          ["Records from dataset: " ++ pyStr (datasetTitle titleFetched) ++
             " (ID: " ++ dataset_id ++ ")",
           "Showing " ++ toString records.length ++ " of " ++
             pyStr (dictGetD results "total_count" (.i 0)) ++
             " total records (offset: " ++ toString offset ++ ")"]
        if records.isEmpty then
          .ok (joinSep "\n" (headerLines ++ ["\nNo records found."]))
        else do
          let sectionLines ← recordsSectionLines records
          .ok (joinSep "\n" (headerLines ++ sectionLines ++
                odsqlNoteLines select whereArg order_by))
      | _ => .error "TypeError"

/-! ### Catalog tools (src/tools/catalog_tools.py) -/

/-- HTML-ish tag stripping applied to description fields by literal
substring replacement of the p and br tags (catalog_tools.py line 44). -/
def cleanDescription (raw : String) : String :=
  pyReplace (pyReplace (pyReplace raw "<p>" "") "</p>" " ") "<br>" " "

/-- Truncation of long descriptions (catalog_tools.py lines 47-48). -/
def truncateDescription (d : String) : String :=
  if d.length > 300 then pyTake d 297 ++ "..." else d

/-- Description as it is rendered in a search_datasets entry: tag
replacements, then truncation. -/
def renderDescription (raw : String) : String :=
  truncateDescription (cleanDescription raw)

/-- One result entry of search_datasets (catalog_tools.py lines 37-52);
idx is the 1-based entry number. An Except.error models an uncaught
exception (chained .get on a non-dict, or .replace on a non-string
description). -/
def searchDatasetEntryLines (idx : Nat) (dataset : Val) : Except String (List String) :=
  match dataset with
  | .o d => do
    let md ← valGetD (dictGetD d "metas" (.o [])) "default" (.o [])
    let title ← valGetD md "title" (.s "Untitled Dataset")
    let publisher ← valGetD md "publisher" (.s "Unknown Publisher")
    let descriptionV ← valGetD md "description" (.s "No description available.")
    let descStr ← match descriptionV with
      | .s t => Except.ok t
      | _ => Except.error "AttributeError"
    .ok ["\n" ++ toString idx ++ ". " ++ pyStr title ++ " (ID: " ++
           pyStr (dictGetD d "dataset_id" (.s "N/A")) ++ ")",
         "   Publisher: " ++ pyStr publisher,
         "   Description: " ++ renderDescription descStr]
  | _ => .error "AttributeError"

/-- Flatten the per-entry lines, numbering entries from the given index
(Python enumerate(datasets, 1)). -/
def entriesLines (f : Nat → Val → Except String (List String)) :
    Nat → List Val → Except String (List String)
  | _, [] => .ok []
  | i, v :: vs => do
    let l ← f i v
    let rest ← entriesLines f (i + 1) vs
    .ok (l ++ rest)

/-- Body of catalog_tools.search_datasets after the lookup (lines 29-54). -/
def formatSearchResults (results : Doc) (query : String) : Except String String :=
  if emptyResultsGuard results then
    .ok "No datasets found matching your query."
  else
    match dictGetD results "results" .null with
    | .a datasets => do
      let entryLs ← entriesLines searchDatasetEntryLines 1 datasets
      .ok (joinSep "\n"
        (("Found " ++ pyStr (dictGetD results "total_count" (.i 0)) ++
          " datasets matching \x27" ++ query ++ "\x27. Here are the first " ++
          toString datasets.length ++ " results:") :: entryLs))
    | _ => .error "TypeError"

/-- The search_datasets tool (catalog_tools.py lines 11-54): the lookup is
NOT wrapped in try/except, so a lookup failure propagates. -/
def search_datasets_tool (fetched : Except String Doc) (query : String) :
    Except String String := do
  let results ← fetched
  formatSearchResults results query

/-- Theme extraction of list_datasets_by_publisher (catalog_tools.py line
147): metas.get("default", ...).get("theme", [""])[0] applied to the
default-metadata value. -/
def themeExtract (defaultMetas : Val) : Except String Val := do
  let tv ← valGetD defaultMetas "theme" (.a [.s ""])
  subscriptZero tv

/-- One result entry of list_datasets_by_publisher (catalog_tools.py lines
139-151). -/
def publisherEntryLines (idx : Nat) (dataset : Val) : Except String (List String) :=
  match dataset with
  | .o d => do
    let md ← valGetD (dictGetD d "metas" (.o [])) "default" (.o [])
    let title ← valGetD md "title" (.s "Untitled Dataset")
    let records_count ← valGetD md "records_count" (.s "Unknown")
    let theme ← themeExtract md
    let themeInfo := if pyTruthy theme then " | Theme: " ++ pyStr theme else ""
    .ok ["\n" ++ toString idx ++ ". " ++ pyStr title ++ " (ID: " ++
           pyStr (dictGetD d "dataset_id" (.s "N/A")) ++ ")",
         "   Records: " ++ pyStr records_count ++ themeInfo]
  | _ => .error "AttributeError"

/-- Body of list_datasets_by_publisher after the lookup (catalog_tools.py
lines 131-153). -/
def formatListByPublisher (results : Doc) (publisher : String) : Except String String :=
  if emptyResultsGuard results then
    .ok ("No datasets found from publisher: " ++ publisher ++ ".")
  else
    match dictGetD results "results" .null with
    | .a datasets => do
      let entryLs ← entriesLines publisherEntryLines 1 datasets
      .ok (joinSep "\n"
        (("Found " ++ pyStr (dictGetD results "total_count" (.i 0)) ++
          " datasets from publisher \x27" ++ publisher ++ "\x27. Here are the first " ++
          toString datasets.length ++ " results:") :: entryLs))
    | _ => .error "TypeError"

/-- The list_datasets_by_publisher tool (catalog_tools.py lines 113-153):
the lookup is NOT wrapped in try/except, so a lookup failure propagates,
and so does any exception raised while formatting (e.g. the IndexError of
the theme extraction). -/
def list_datasets_by_publisher_tool (fetched : Except String Doc) (publisher : String) :
    Except String String := do
  let results ← fetched
  formatListByPublisher results publisher

/-! ### Analysis tools: field validation (src/tools/analysis_tools.py
lines 111-132, 229-250, 338-359) -/

/-- Python membership test of a value in a list of string literals
(field_type in [...]): true only for an equal string. -/
def valInStrList (v : Val) (ts : List String) : Bool :=
  match v with
  | .s t => ts.contains t
  | _ => false

/-- The accepted numeric field types (analysis_tools.py line 127). -/
def numericTypes : List String := ["int", "double", "decimal", "float"]

/-- The accepted date field types (analysis_tools.py line 354). -/
def dateTypes : List String := ["date", "datetime"]

/-- The field-lookup loop (analysis_tools.py lines 117-121): first field
dict whose "name" value equals field_name; a non-dict field raises. -/
def findFieldInfo (field_name : String) : List Val → Except String (Option Doc)
  | [] => .ok none
  | .o d :: rest =>
    match dictGet? d "name" with
    | some (.s n) => if n == field_name then .ok (some d) else findFieldInfo field_name rest
    | _ => findFieldInfo field_name rest
  | _ :: _ => .error "AttributeError"

/-- Outcome of the schema-validation phase of the analyze_* tools:
either an early-returned message, or the field_info dict to proceed with. -/
inductive ValidationOutcome where
  | message : String → ValidationOutcome
  | proceed : Doc → ValidationOutcome

/-- Shared shape of the validation phase (fetch schema, find field, check
its type against accepted types); wrongTypeMsg builds the per-tool early
return message from the type value. The whole phase sits in a try/except
that renders any exception as "Error validating field: ...". -/
def fieldValidation (accepted : List String) (wrongTypeMsg : Val → String)
    (schemaFetched : Except String Doc) (dataset_id field_name : String) :
    ValidationOutcome :=
  match (do
      let info ← schemaFetched
      match dictGetD info "fields" (.a []) with
      | .a fl => findFieldInfo field_name fl
      | _ => Except.error "TypeError") with
  | .error e => .message ("Error validating field: " ++ e)
  | .ok none => .message ("Field \x27" ++ field_name ++ "\x27 not found in dataset \x27" ++
      dataset_id ++ "\x27.")
  | .ok (some fi) =>
    let ftypeV := dictGetD fi "type" (.s "")
    if valInStrList ftypeV accepted then .proceed fi
    else .message (wrongTypeMsg ftypeV)

/-- Validation phase of analyze_numeric_field (lines 111-132). -/
def analyzeNumericFieldValidation (schemaFetched : Except String Doc)
    (dataset_id field_name : String) : ValidationOutcome :=
  fieldValidation numericTypes
    (fun v => "Field \x27" ++ field_name ++ "\x27 is not a numeric field (type: " ++
      pyStr v ++ ").")
    schemaFetched dataset_id field_name

/-- Validation phase of analyze_text_field (lines 229-250); the source
compares field_type != "text". -/
def analyzeTextFieldValidation (schemaFetched : Except String Doc)
    (dataset_id field_name : String) : ValidationOutcome :=
  fieldValidation ["text"]
    (fun v => "Field \x27" ++ field_name ++ "\x27 is not a text field (type: " ++
      pyStr v ++ ").")
    schemaFetched dataset_id field_name

/-- Validation phase of analyze_date_field (lines 338-359). -/
def analyzeDateFieldValidation (schemaFetched : Except String Doc)
    (dataset_id field_name : String) : ValidationOutcome :=
  fieldValidation dateTypes
    (fun v => "Field \x27" ++ field_name ++ "\x27 is not a date field (type: " ++
      pyStr v ++ ").")
    schemaFetched dataset_id field_name

/-- analyze_numeric_field as a whole: when validation early-returns, its
message is the tool result and the aggregation continuation (lines
134-209, which performs the statistics and distribution requests) is
never invoked; otherwise the continuation runs on the field_info. -/
def analyze_numeric_field_tool (schemaFetched : Except String Doc)
    (aggregationRun : Doc → String) (dataset_id field_name : String) : String :=
  match analyzeNumericFieldValidation schemaFetched dataset_id field_name with
  | .message m => m
  | .proceed fi => aggregationRun fi

/-! ### Numeric distribution buckets (analysis_tools.py lines 155-187),
with exact rational arithmetic in place of Python floats. -/

/-- range_size = (max - min) / 10 (line 159). -/
def rangeSize (minV maxV : ℚ) : ℚ := (maxV - minV) / 10

/-- lower = min + i * range_size (line 166). -/
def bucketLower (minV maxV : ℚ) (i : ℕ) : ℚ := minV + i * rangeSize minV maxV

/-- upper = min + (i+1) * range_size (line 167). -/
def bucketUpper (minV maxV : ℚ) (i : ℕ) : ℚ := minV + (i + 1) * rangeSize minV maxV

/-- The predicate expressed by the where clause sent for bucket i (lines
170-172): lower <= v < upper, except bucket 9 which uses v <= upper. -/
def inBucket (minV maxV : ℚ) (i : ℕ) (v : ℚ) : Bool :=
  if i == 9 then
    decide (bucketLower minV maxV i ≤ v) && decide (v ≤ bucketUpper minV maxV i)
  else
    decide (bucketLower minV maxV i ≤ v) && decide (v < bucketUpper minV maxV i)

/-- The (lower, upper) bucket bounds produced by the loop (lines 162-181):
ten buckets when range_size > 0, none otherwise (line 161 comment: if
range_size is zero, no distribution). -/
def distributionRanges (minV maxV : ℚ) : Option (List (ℚ × ℚ)) :=
  if rangeSize minV maxV > 0 then
    some ((List.range 10).map fun i => (bucketLower minV maxV i, bucketUpper minV maxV i))
  else none

/-! ### Percentage rendering (analysis_tools.py lines 311-316 and 589-593) -/

/-- Embeds Python .2f formatting on a rational value: round to the nearest
hundredth and print with exactly two digits after the decimal point. -/
def fmt2 (q : ℚ) : String :=
  let n : ℤ := round (q * 100)
  let m := n.natAbs
  (if n < 0 then "-" else "") ++ toString (m / 100) ++ "." ++
    String.mk [Nat.digitChar (m / 10 % 10), Nat.digitChar (m % 10)]

/-- Percentage cell of analyze_text_field (lines 311-316): total_records
must be numeric and positive, else "N/A"; the division itself raises
TypeError on a non-numeric count. -/
def percentageCell (count : Val) (total_records : Val) : Except String String :=
  match total_records with
  | .i t =>
    if t > 0 then
      match count with
      | .i c => .ok (fmt2 ((c : ℚ) / (t : ℚ) * 100) ++ "%")
      | _ => .error "TypeError"
    else .ok "N/A"
  | _ => .ok "N/A"

/-- Fill-rate cell of generate_dataset_statistics (lines 589-593): both
field_count and total_records must be numeric and total_records positive,
else "N/A". -/
def fillRateCell (field_count : Val) (total_records : Val) : String :=
  match field_count, total_records with
  | .i c, .i t => if t > 0 then fmt2 ((c : ℚ) / (t : ℚ) * 100) ++ "%" else "N/A"
  | _, _ => "N/A"

/-! ### Facet analysis (src/tools/query_tools.py lines 228-253) -/

/-- Sort key of the facet-value sort: x.get("count", 0); the counts
reported by the API are integers, any other value is keyed as 0. -/
def sortKeyInt (d : Doc) : Int :=
  match dictGetD d "count" (.i 0) with
  | .i n => n
  | _ => 0

/-- sorted(facet_values, key=..., reverse=True): stable descending sort by
count (query_tools.py line 239). -/
def sortedFacetValues (vals : List Doc) : List Doc :=
  vals.mergeSort fun a b => decide (sortKeyInt b ≤ sortKeyInt a)

/-- One facet-value table row (query_tools.py lines 245-250). -/
def facetRowLine (v : Doc) : String :=
  "| " ++ pyStr (dictGetD v "name" (.s "N/A")) ++ " | " ++
    pyStr (dictGetD v "count" (.i 0)) ++ " | " ++
    pyStr (dictGetD v "state" (.s "N/A")) ++ " |"

/-- The per-facet section of facet_analysis (query_tools.py lines 228-253):
header, then for a non-empty value list the table of the top 20 values by
descending count, with a closing note when more than 20 values exist. -/
def facetSectionLines (facet_name : String) (facet_values : List Doc) : List String :=
  ("\nFacet: " ++ facet_name ++ " (" ++ toString facet_values.length ++ " values)") ::
  (if facet_values.isEmpty then ["  No values found for this facet."]
   else
    let sortedVals := sortedFacetValues facet_values
    "\n| Value | Count | State |" :: "| --- | --- | --- |" ::
      (sortedVals.take 20).map facetRowLine ++
      (if sortedVals.length > 20 then
        ["\n(Showing top 20 of " ++ toString sortedVals.length ++ " values)"]
       else []))

/-- Helper: fuse the closing quote of the search term with the following
" AND " separator. -/
theorem string_quote_and_append (x : String) : "\"" ++ (" AND " ++ x) = "\" AND " ++ x := by
  rw [← String.append_assoc]
  rfl

/-- Claim C1: the list_datasets filter is the " AND "-join of, in order, the
double-quoted search term, the where clause, publisher="...", theme="...",
with absent (untruthy) parts skipped; in particular with all four supplied
the filter begins with the quoted search term followed by the other three
parts in that order. -/
theorem c1_list_datasets_filter_order :
    (∀ search publisher theme whereArg : Option String,
      listDatasetsWhereParam search publisher theme whereArg =
        (let parts :=
          (if pyTruthyStr search then ["\"" ++ search.getD "" ++ "\""] else []) ++
          (if pyTruthyStr whereArg then [whereArg.getD ""] else []) ++
          (if pyTruthyStr publisher then ["publisher=\"" ++ publisher.getD "" ++ "\""] else []) ++
          (if pyTruthyStr theme then ["theme=\"" ++ theme.getD "" ++ "\""] else [])
        if parts.isEmpty then none else some (joinSep " AND " parts))) ∧
    listDatasetsWhereParam (some "energy") (some "Pub Co") (some "Environment")
        (some "records_count>100") =
      some "\"energy\" AND records_count>100 AND publisher=\"Pub Co\" AND theme=\"Environment\"" := by
  constructor
  · intro search publisher theme whereArg
    cases hs : pyTruthyStr search <;> cases hw : pyTruthyStr whereArg <;>
      cases hp : pyTruthyStr publisher <;> cases ht : pyTruthyStr theme <;>
      simp [listDatasetsWhereParam, hs, hw, hp, ht, joinSep, String.append_assoc,
        string_quote_and_append]
  · rfl

/-- Claim C2 is false as stated: the search_datasets and
list_datasets_by_publisher tools do not wrap their catalog lookup in
try/except, so at the concrete failing lookup below the tool result is the
propagated exception, not a text report. -/
theorem c2_counterexample :
    search_datasets_tool (.error "HTTPStatusError: 404 Not Found") "energy" =
      .error "HTTPStatusError: 404 Not Found" := rfl

/-- Claim C2 (amended): get_dataset_records catches a failure of its primary
lookup and returns a one-line error report, but search_datasets and
list_datasets_by_publisher propagate the lookup failure to their caller. -/
theorem c2_error_propagation (e query publisher dataset_id : String)
    (titleFetched : Except String Doc) (offset : Int)
    (select whereArg order_by : Option String) :
    search_datasets_tool (.error e) query = .error e ∧
    list_datasets_by_publisher_tool (.error e) publisher = .error e ∧
    get_dataset_records_tool (.error e) titleFetched dataset_id offset
        select whereArg order_by =
      .ok ("Error retrieving dataset records: " ++ e) :=
  ⟨rfl, rfl, rfl⟩

/-- Helper: length of pyTake. -/
theorem pyTake_length (s : String) (n : ℕ) : (pyTake s n).length = min n s.length := by
  have h : (pyTake s n).length = (s.data.take n).length := rfl
  rw [h, List.length_take]
  rfl

/-- Claim C10: in a search_datasets entry, the post-replacement description
is truncated to its first 297 characters plus "..." when longer than 300
characters, left unchanged otherwise, so the rendered description never
exceeds 300 characters. -/
theorem c10_description_truncation (raw : String) :
    (300 < (cleanDescription raw).length →
      renderDescription raw = pyTake (cleanDescription raw) 297 ++ "..." ∧
      (renderDescription raw).length = 300) ∧
    ((cleanDescription raw).length ≤ 300 → renderDescription raw = cleanDescription raw) ∧
    (renderDescription raw).length ≤ 300 := by
  unfold renderDescription truncateDescription
  by_cases h : (cleanDescription raw).length > 300
  · refine ⟨fun _ => ⟨by rw [if_pos h], ?_⟩, fun hle => absurd h (by omega), ?_⟩ <;>
    · rw [if_pos h, String.length_append, pyTake_length]
      have h3 : "...".length = 3 := rfl
      omega
  · refine ⟨fun hgt => absurd hgt h, fun _ => by rw [if_neg h], ?_⟩
    rw [if_neg h]
    omega

set_option maxRecDepth 8192 in
/-- Claim C10 witness: a 301-character description is rendered as its first
297 characters followed by "...". -/
theorem c10_witness :
    (300 : ℕ) < (cleanDescription (String.mk (List.replicate 301 'a'))).length ∧
    renderDescription (String.mk (List.replicate 301 'a')) =
      pyTake (cleanDescription (String.mk (List.replicate 301 'a'))) 297 ++ "..." :=
  ⟨by decide, ((c10_description_truncation (String.mk (List.replicate 301 'a'))).1
      (by decide)).1⟩

/-- Claim C4: a percentage cell is "N/A" whenever the total is non-numeric
or not positive (no division is attempted: the guard never inspects the
count in that case and never raises), and otherwise it is (part/total)*100
rendered by the two-decimal formatter followed by a percent sign, whose
output always carries exactly two digits after the decimal point. -/
theorem c4_percentage_guard :
    (∀ count total : Val, (∀ t : Int, total ≠ .i t) →
      percentageCell count total = .ok "N/A" ∧ fillRateCell count total = "N/A") ∧
    (∀ (count : Val) (t : Int), t ≤ 0 →
      percentageCell count (.i t) = .ok "N/A" ∧ fillRateCell count (.i t) = "N/A") ∧
    (∀ c t : Int, 0 < t →
      percentageCell (.i c) (.i t) = .ok (fmt2 ((c : ℚ) / (t : ℚ) * 100) ++ "%") ∧
      fillRateCell (.i c) (.i t) = fmt2 ((c : ℚ) / (t : ℚ) * 100) ++ "%" ∧
      ∃ (w : String) (d1 d2 : Char),
        fmt2 ((c : ℚ) / (t : ℚ) * 100) = w ++ "." ++ String.mk [d1, d2]) := by
  refine ⟨fun count total hne => ?_, fun count t ht => ?_, fun c t ht => ?_⟩
  · cases total with
    | i t => exact absurd rfl (hne t)
    | s _ => exact ⟨rfl, by cases count <;> rfl⟩
    | a _ => exact ⟨rfl, by cases count <;> rfl⟩
    | o _ => exact ⟨rfl, by cases count <;> rfl⟩
    | null => exact ⟨rfl, by cases count <;> rfl⟩
  · have hnot : ¬ t > 0 := by omega
    constructor
    · cases count <;> simp [percentageCell, hnot]
    · cases count <;> simp [fillRateCell, hnot]
  · refine ⟨by simp [percentageCell, ht], by simp [fillRateCell, ht], ?_⟩
    simp only [fmt2]
    exact ⟨_, _, _, rfl⟩

/-- Claim C4 witness: total zero and a non-numeric total both render "N/A". -/
theorem c4_witness :
    percentageCell (.i 7) (.i 0) = .ok "N/A" ∧ fillRateCell (.i 7) (.i 0) = "N/A" :=
  c4_percentage_guard.2.1 (.i 7) 0 (by decide)

/-- Helper: bind on a successful Except reduces to the continuation. -/
theorem except_bind_ok {α β ε : Type} (a : α) (f : α → Except ε β) :
    (Except.ok a >>= f) = f a := rfl

/-- Helper: bind on a failed Except keeps the error. -/
theorem except_bind_err {α β ε : Type} (e : ε) (f : α → Except ε β) :
    ((Except.error e : Except ε α) >>= f) = .error e := rfl

/-- Claim C9: in the list_datasets_by_publisher formatter, a default
metadata dict binding "theme" to an empty list makes the theme extraction
raise IndexError, which no handler catches, so the tool call on such a
response yields the propagated exception instead of a report; the [""]
fallback (giving theme "") applies exactly when the "theme" key is absent. -/
theorem c9_theme_indexerror :
    (∀ md : Doc, dictGet? md "theme" = some (.a []) →
      themeExtract (.o md) = .error "IndexError") ∧
    (∀ md : Doc, dictGet? md "theme" = none → themeExtract (.o md) = .ok (.s "")) ∧
    list_datasets_by_publisher_tool
      (.ok [("total_count", .i 1),
            ("results", .a [.o [("dataset_id", .s "d1"),
              ("metas", .o [("default", .o [("title", .s "T"),
                ("records_count", .i 5), ("theme", .a [])])])]])])
      "ACME" = .error "IndexError" := by
  refine ⟨fun md h => ?_, fun md h => ?_, rfl⟩
  · simp [themeExtract, valGetD, dictGetD, h, subscriptZero, except_bind_ok]
  · simp [themeExtract, valGetD, dictGetD, h, subscriptZero, except_bind_ok]

/-- Claim C9 witness: the empty-theme-list metadata dict triggers the
IndexError path of the theme extraction. -/
theorem c9_witness : themeExtract (.o [("theme", .a [])]) = .error "IndexError" :=
  c9_theme_indexerror.1 [("theme", .a [])] rfl

/-- Claim C6: the markdown table takes its column set from the first
key order of the first record and applies it to every row; the separator row has as
many cells as the header; a record missing a key renders the empty string
for that cell; on the records of the spec example the b column is present
with an empty cell in the second row. -/
theorem c6_table_shape :
    (∀ (recordKeys : List String) (records : List Val) (lines : List String),
      markdownTableLines recordKeys records = .ok lines →
      lines.head? = some ("\n| " ++ joinSep " | " recordKeys ++ " |") ∧
      (lines.drop 1).head? =
        some ("| " ++ joinSep " | " (recordKeys.map fun _ => "---") ++ " |") ∧
      (recordKeys.map fun _ => "---").length = recordKeys.length) ∧
    (∀ (r : Doc) (k : String), dictGet? r k = none → tableCell r k = "") ∧
    recordsSectionLines [.o [("a", .i 1), ("b", .i 2)], .o [("a", .i 3)]] =
      .ok ["\n| a | b |", "| --- | --- |", "| 1 | 2 |", "| 3 |  |"] := by
  refine ⟨fun recordKeys records lines h => ?_, fun r k h => ?_, rfl⟩
  · cases hrows : tableRowsAux recordKeys records with
    | error e => simp [markdownTableLines, hrows, except_bind_err] at h
    | ok rows =>
      simp only [markdownTableLines, hrows, except_bind_ok] at h
      cases h
      exact ⟨rfl, rfl, by simp⟩
  · simp [tableCell, dictGetD, h, displayCell, pyStr]

/-- Claim C6 witness: a key absent from a record renders as the empty
string cell. -/
theorem c6_witness : tableCell [("a", .i 3)] "b" = "" :=
  c6_table_shape.2.1 [("a", .i 3)] "b" rfl

/-- Claim C7: when the fetched schema gives the requested field the type
geo_point_2d, analyze_numeric_field returns exactly the not-a-numeric-field
message and the aggregation continuation is never invoked (the result is
the same for every continuation); more generally the analyze validators
fail fast with the not-found message when the field is absent, and with
the wrong-type message for any type outside the accepted class. -/
theorem c7_fail_fast (info fi : Doc) (fl : List Val) (field_name dataset_id : String) :
    (∀ aggregationRun : Doc → String,
      dictGetD info "fields" (.a []) = .a fl →
      findFieldInfo field_name fl = .ok (some fi) →
      dictGetD fi "type" (.s "") = .s "geo_point_2d" →
      analyze_numeric_field_tool (.ok info) aggregationRun dataset_id field_name =
        "Field \x27" ++ field_name ++ "\x27 is not a numeric field (type: geo_point_2d).") ∧
    (dictGetD info "fields" (.a []) = .a fl →
      findFieldInfo field_name fl = .ok none →
      analyzeNumericFieldValidation (.ok info) dataset_id field_name =
        .message ("Field \x27" ++ field_name ++ "\x27 not found in dataset \x27" ++
          dataset_id ++ "\x27.") ∧
      analyzeTextFieldValidation (.ok info) dataset_id field_name =
        .message ("Field \x27" ++ field_name ++ "\x27 not found in dataset \x27" ++
          dataset_id ++ "\x27.") ∧
      analyzeDateFieldValidation (.ok info) dataset_id field_name =
        .message ("Field \x27" ++ field_name ++ "\x27 not found in dataset \x27" ++
          dataset_id ++ "\x27.")) ∧
    (∀ t : String,
      dictGetD info "fields" (.a []) = .a fl →
      findFieldInfo field_name fl = .ok (some fi) →
      dictGetD fi "type" (.s "") = .s t →
      t ∉ numericTypes →
      analyzeNumericFieldValidation (.ok info) dataset_id field_name =
        .message ("Field \x27" ++ field_name ++ "\x27 is not a numeric field (type: " ++
          t ++ ").")) := by
  refine ⟨fun agg h1 h2 h3 => ?_, fun h1 h2 => ?_, fun t h1 h2 h3 ht => ?_⟩
  · simp only [analyze_numeric_field_tool, analyzeNumericFieldValidation, fieldValidation,
      except_bind_ok, h1, h2, h3]
    simp only [valInStrList, numericTypes, pyStr]
    norm_num
    simp only [String.append_assoc]
    rfl
  · refine ⟨?_, ?_, ?_⟩ <;>
      simp only [analyzeNumericFieldValidation, analyzeTextFieldValidation,
        analyzeDateFieldValidation, fieldValidation, except_bind_ok, h1, h2]
  · simp only [analyzeNumericFieldValidation, fieldValidation, except_bind_ok, h1, h2, h3]
    have hc : valInStrList (.s t) numericTypes = false := by
      simp [valInStrList, List.contains, ht]
    simp [hc, pyStr]

/-- Claim C7 witness: a concrete schema whose field geo has type
geo_point_2d produces exactly the claimed message, for a continuation that
would report having run. -/
theorem c7_witness :
    analyze_numeric_field_tool
      (.ok [("fields", .a [.o [("name", .s "geo"), ("type", .s "geo_point_2d")]])])
      (fun _ => "AGGREGATION RAN") "ds1" "geo" =
      "Field \x27geo\x27 is not a numeric field (type: geo_point_2d)." :=
  (c7_fail_fast [("fields", .a [.o [("name", .s "geo"), ("type", .s "geo_point_2d")]])]
      [("name", .s "geo"), ("type", .s "geo_point_2d")]
      [.o [("name", .s "geo"), ("type", .s "geo_point_2d")]] "geo" "ds1").1
    (fun _ => "AGGREGATION RAN") rfl rfl rfl

/-- Claim C5 is false as stated: for a record with 11 fields,
get_dataset_records switches to the verbose listing but
get_dataset_aggregates still renders the pipe table, so the switch does
not apply to every report type that renders records as a table. -/
theorem c5_counterexample :
    aggregatesSectionLines
        [.o [("a", .i 1), ("b", .i 2), ("c", .i 3), ("d", .i 4), ("e", .i 5),
             ("f", .i 6), ("g", .i 7), ("h", .i 8), ("i", .i 9), ("j", .i 10),
             ("k", .i 11)]] =
      .ok ["\n| a | b | c | d | e | f | g | h | i | j | k |",
           "| --- | --- | --- | --- | --- | --- | --- | --- | --- | --- | --- |",
           "| 1 | 2 | 3 | 4 | 5 | 6 | 7 | 8 | 9 | 10 | 11 |"] ∧
    recordsSectionLines
        [.o [("a", .i 1), ("b", .i 2), ("c", .i 3), ("d", .i 4), ("e", .i 5),
             ("f", .i 6), ("g", .i 7), ("h", .i 8), ("i", .i 9), ("j", .i 10),
             ("k", .i 11)]] =
      .ok ["\nFound 11 fields in the records. Here\x27s a summary of the first 1 records:",
           "\nRecord 1:", "  a: 1", "  b: 2", "  c: 3", "  d: 4", "  e: 5", "  f: 6",
           "  g: 7", "  h: 8", "  i: 9", "  j: 10", "  k: 11"] ∧
    (["\n| a | b | c | d | e | f | g | h | i | j | k |"] : List String) ≠
      ["\nFound 11 fields in the records. Here\x27s a summary of the first 1 records:"] :=
  ⟨rfl, rfl, by decide⟩

/-- Claim C5 (amended): the switch from the pipe table to the verbose
per-record listing at more than 10 fields applies to get_dataset_records
only; get_dataset_aggregates always renders the pipe table, its first
output line being the table header row for any field count. -/
theorem c5_field_count_switch (d0 : Doc) (rest : List Val) (lines : List String) :
    (10 < (d0.map Prod.fst).length →
      recordsSectionLines (.o d0 :: rest) = .ok lines →
      lines.head? = some ("\nFound " ++ toString (d0.map Prod.fst).length ++
        " fields in the records. Here\x27s a summary of the first " ++
        toString (rest.length + 1) ++ " records:")) ∧
    ((d0.map Prod.fst).length ≤ 10 →
      recordsSectionLines (.o d0 :: rest) = .ok lines →
      lines.head? = some ("\n| " ++ joinSep " | " (d0.map Prod.fst) ++ " |")) ∧
    (aggregatesSectionLines (.o d0 :: rest) = .ok lines →
      lines.head? = some ("\n| " ++ joinSep " | " (d0.map Prod.fst) ++ " |")) := by
  refine ⟨fun hgt heq => ?_, fun hle heq => ?_, fun heq => ?_⟩
  · rw [recordsSectionLines, if_pos hgt] at heq
    cases hv : verboseRecordLines 1 (.o d0 :: rest) with
    | error e => rw [hv] at heq; simp [except_bind_err] at heq
    | ok ls =>
      rw [hv] at heq
      simp only [except_bind_ok, Except.ok.injEq] at heq
      simp [← heq]
  · rw [recordsSectionLines, if_neg (by omega)] at heq
    cases hrows : tableRowsAux (d0.map Prod.fst) (.o d0 :: rest) with
    | error e => rw [markdownTableLines, hrows] at heq; simp [except_bind_err] at heq
    | ok rows =>
      rw [markdownTableLines, hrows] at heq
      simp only [except_bind_ok, Except.ok.injEq] at heq
      simp [← heq]
  · rw [aggregatesSectionLines] at heq
    cases hrows : tableRowsAux (d0.map Prod.fst) (.o d0 :: rest) with
    | error e => rw [markdownTableLines, hrows] at heq; simp [except_bind_err] at heq
    | ok rows =>
      rw [markdownTableLines, hrows] at heq
      simp only [except_bind_ok, Except.ok.injEq] at heq
      simp [← heq]

/-- Claim C5 witness: a one-field record renders as a table whose first
line is the header row. -/
theorem c5_witness :
    List.head? ["\n| a |", "| --- |", "| 1 |"] =
      some ("\n| " ++ joinSep " | " ["a"] ++ " |") :=
  (c5_field_count_switch [("a", .i 1)] [] ["\n| a |", "| --- |", "| 1 |"]).2.1
    (by decide) rfl

/-- Claim C8: the facet section sorts the facet values by descending count
(a stable sort, hence a permutation of the input), renders at most the top
20 of them as table rows, and appends the omission note exactly when more
than 20 values exist. -/
theorem c8_facet_top20 (facet_name : String) (vals : List Doc) :
    (sortedFacetValues vals).Perm vals ∧
    List.Sorted (fun a b => sortKeyInt b ≤ sortKeyInt a) (sortedFacetValues vals) ∧
    ((sortedFacetValues vals).take 20).length ≤ 20 ∧
    (vals ≠ [] →
      facetSectionLines facet_name vals =
        ("\nFacet: " ++ facet_name ++ " (" ++ toString vals.length ++ " values)") ::
        "\n| Value | Count | State |" :: "| --- | --- | --- |" ::
        ((sortedFacetValues vals).take 20).map facetRowLine ++
        (if vals.length > 20 then
          ["\n(Showing top 20 of " ++ toString vals.length ++ " values)"]
         else [])) := by
  refine ⟨List.mergeSort_perm vals _, ?_, ?_, fun hne => ?_⟩
  · have hs := @List.sorted_mergeSort Doc
      (fun a b : Doc => decide (sortKeyInt b ≤ sortKeyInt a))
      (fun a b c hab hbc => by
        simp only [decide_eq_true_eq] at hab hbc ⊢
        exact le_trans hbc hab)
      (fun a b => by
        simp only [Bool.or_eq_true, decide_eq_true_eq]
        exact le_total (sortKeyInt b) (sortKeyInt a))
      vals
    exact hs.imp fun h => by simpa using h
  · exact List.length_take_le 20 _
  · have hlen : (sortedFacetValues vals).length = vals.length :=
      (List.mergeSort_perm vals _).length_eq
    rw [facetSectionLines, if_neg (by simp [hne])]
    simp only [hlen]
    rfl

/-- Claim C8 witness: the facet section for a single facet value. -/
theorem c8_witness :
    facetSectionLines "publisher" [[("name", .s "A"), ("count", .i 2)]] =
      ("\nFacet: " ++ "publisher" ++ " (" ++
        toString ([[("name", Val.s "A"), ("count", Val.i 2)]] : List Doc).length ++
        " values)") ::
      "\n| Value | Count | State |" :: "| --- | --- | --- |" ::
      ((sortedFacetValues [[("name", Val.s "A"), ("count", Val.i 2)]]).take 20).map
        facetRowLine ++
      (if ([[("name", Val.s "A"), ("count", Val.i 2)]] : List Doc).length > 20 then
        ["\n(Showing top 20 of " ++
          toString ([[("name", Val.s "A"), ("count", Val.i 2)]] : List Doc).length ++
          " values)"]
       else []) :=
  (c8_facet_top20 "publisher" [[("name", .s "A"), ("count", .i 2)]]).2.2.2
    (List.cons_ne_nil _ _)

/-- Helper: the bucket width is positive when min < max. -/
theorem rangeSize_pos (minV maxV : ℚ) (h : minV < maxV) : 0 < rangeSize minV maxV :=
  div_pos (sub_pos.mpr h) (by norm_num)

/-- Helper: the upper bound of the last bucket is exactly max. -/
theorem bucketUpper_nine (minV maxV : ℚ) : bucketUpper minV maxV 9 = maxV := by
  unfold bucketUpper rangeSize
  push_cast
  ring

/-- Helper: two distinct buckets cannot both contain a value. -/
theorem inBucket_lt_disjoint (minV maxV v : ℚ) (hw : 0 ≤ rangeSize minV maxV)
    (i j : Fin 10) (hij : i < j)
    (hi : inBucket minV maxV i v = true) (hj : inBucket minV maxV j v = true) : False := by
  have hij' : (i : ℕ) < (j : ℕ) := hij
  have hj10 : (j : ℕ) < 10 := j.isLt
  have hi9 : (i : ℕ) ≠ 9 := by omega
  rw [inBucket, if_neg (by simp [hi9])] at hi
  simp only [Bool.and_eq_true, decide_eq_true_eq] at hi
  have hlowj : bucketLower minV maxV j ≤ v := by
    by_cases hc : ((j : ℕ) == 9) = true
    · rw [inBucket, if_pos hc] at hj
      simp only [Bool.and_eq_true, decide_eq_true_eq] at hj
      exact hj.1
    · rw [inBucket, if_neg hc] at hj
      simp only [Bool.and_eq_true, decide_eq_true_eq] at hj
      exact hj.1
  have hstep : bucketUpper minV maxV i ≤ bucketLower minV maxV j := by
    unfold bucketUpper bucketLower
    have hcast : ((i : ℕ) : ℚ) + 1 ≤ ((j : ℕ) : ℚ) := by exact_mod_cast hij'
    nlinarith [mul_le_mul_of_nonneg_right hcast hw]
  linarith [hi.2, hlowj, hstep]

/-- Helper: every value between min and max lies in some bucket. -/
theorem inBucket_exists (minV maxV v : ℚ) (h : minV < maxV)
    (h1 : minV ≤ v) (h2 : v ≤ maxV) :
    ∃ i : Fin 10, inBucket minV maxV i v = true := by
  have hw := rangeSize_pos minV maxV h
  by_cases hbig : minV + 9 * rangeSize minV maxV ≤ v
  · refine ⟨⟨9, by norm_num⟩, ?_⟩
    rw [inBucket, if_pos (by simp)]
    simp only [Bool.and_eq_true, decide_eq_true_eq]
    constructor
    · unfold bucketLower
      push_cast
      linarith
    · rw [bucketUpper_nine]
      exact h2
  · push_neg at hbig
    have hk0 : 0 ≤ ⌊(v - minV) / rangeSize minV maxV⌋ :=
      Int.floor_nonneg.mpr (div_nonneg (by linarith) hw.le)
    have hkle : ((⌊(v - minV) / rangeSize minV maxV⌋ : ℤ) : ℚ) ≤
        (v - minV) / rangeSize minV maxV := Int.floor_le _
    have hklt : (v - minV) / rangeSize minV maxV <
        (⌊(v - minV) / rangeSize minV maxV⌋ : ℚ) + 1 := Int.lt_floor_add_one _
    have hk8 : ⌊(v - minV) / rangeSize minV maxV⌋ ≤ 8 := by
      have h9 : (v - minV) / rangeSize minV maxV < 9 := by
        rw [div_lt_iff₀ hw]
        linarith
      have : ⌊(v - minV) / rangeSize minV maxV⌋ < 9 :=
        Int.floor_lt.mpr (by exact_mod_cast h9)
      omega
    refine ⟨⟨⌊(v - minV) / rangeSize minV maxV⌋.toNat, by omega⟩, ?_⟩
    have hne : ((⟨⌊(v - minV) / rangeSize minV maxV⌋.toNat, by omega⟩ : Fin 10) : ℕ) ≠ 9 := by
      simp only []
      omega
    rw [inBucket, if_neg (by simp [hne])]
    simp only [Bool.and_eq_true, decide_eq_true_eq]
    have hcast : ((⌊(v - minV) / rangeSize minV maxV⌋.toNat : ℕ) : ℚ) =
        ((⌊(v - minV) / rangeSize minV maxV⌋ : ℤ) : ℚ) := by
      exact_mod_cast congrArg Int.cast (Int.toNat_of_nonneg hk0)
    constructor
    · unfold bucketLower
      rw [hcast]
      have := (le_div_iff₀ hw).mp hkle
      linarith
    · unfold bucketUpper
      rw [hcast]
      have := (div_lt_iff₀ hw).mp hklt
      linarith

/-- Claim C3: for min < max the distribution is exactly ten buckets with
lower bound min + i*width and upper bound min + (i+1)*width, buckets 0..8
upper-exclusive and bucket 9 upper-inclusive with upper bound exactly max,
so every value in the closed interval lies in exactly one bucket; for
min = max no distribution is produced. -/
theorem c3_distribution_buckets (minV maxV v : ℚ) :
    (minV < maxV →
      distributionRanges minV maxV =
        some ((List.range 10).map fun i =>
          (minV + i * rangeSize minV maxV, minV + (i + 1) * rangeSize minV maxV)) ∧
      ((distributionRanges minV maxV).getD []).length = 10 ∧
      bucketUpper minV maxV 9 = maxV ∧
      (minV ≤ v → v ≤ maxV → ∃! i : Fin 10, inBucket minV maxV i v = true)) ∧
    (minV = maxV → distributionRanges minV maxV = none) := by
  constructor
  · intro h
    have hw := rangeSize_pos minV maxV h
    refine ⟨by rw [distributionRanges, if_pos hw]; rfl,
      by rw [distributionRanges, if_pos hw]; simp,
      bucketUpper_nine minV maxV, fun h1 h2 => ?_⟩
    obtain ⟨i, hi⟩ := inBucket_exists minV maxV v h h1 h2
    refine ⟨i, hi, fun j hj => ?_⟩
    rcases lt_trichotomy j i with hlt | heq | hgt
    · exact absurd (inBucket_lt_disjoint minV maxV v hw.le j i hlt hj hi) (fun f => f)
    · exact heq
    · exact absurd (inBucket_lt_disjoint minV maxV v hw.le i j hgt hi hj) (fun f => f)
  · intro h
    rw [distributionRanges, if_neg]
    rw [rangeSize, h]
    simp

/-- Claim C3 witness: for min 0 and max 100 the value 100 lies in exactly
one bucket (the last), as does any in-range value. -/
theorem c3_witness :
    (0 : ℚ) < 100 ∧ (∃! i : Fin 10, inBucket 0 100 i 100 = true) :=
  ⟨by norm_num,
    (((c3_distribution_buckets 0 100 100).1 (by norm_num)).2.2.2 (by norm_num) (by norm_num))⟩

end OdsMcp
